import Mathlib

/-!
Verification of the subscription-routing and execution-dispatch core of the
flowerpower-mqtt repository, together with the `MQTTMonitor` helper from
`src/flowerpower_mqtt/examples/monitoring.py`.

The repository ships only example scripts; the routing core itself (Topic
Matcher, Subscription Registry, Dispatch Router, Execution Adapter,
Statistics Aggregator) is described by the specification but its code is not
under `src/`.  Those components are therefore modelled from the spec, as
marked on each definition.  The monitoring helper is embedded directly from
its Python source.
-/

namespace FlowerPowerMqtt

/-! ## Topic Matcher -/

/-- Modelled from the spec: one parsed segment of a `TopicFilter` — a literal
string, the single-level wildcard `+`, or the multi-level wildcard `#`.
(The Topic Matcher component is absent from `src/`.) -/
inductive Seg where
  | lit (s : String)
  | plus
  | hash
deriving DecidableEq, Repr

/-- Modelled from the spec: a compiled topic filter, a list of parsed
segments (the Topic Matcher component is absent from `src/`). -/
structure TopicFilter where
  segs : List Seg
deriving DecidableEq, Repr

/-- Modelled from the spec: the error taxonomy of the core (§7); the code
raising these errors is absent from `src/`. -/
inductive ErrorKind where
  | InvalidFilter
  | InvalidMessage
  | PipelineNotFound
  | PipelineExecutionFailed (msg : String)
  | QueueUnavailable
deriving DecidableEq, Repr

/-- Splitting a character list on `/`, accumulating the current segment in
reverse; the executable core of `splitOnSlash`. -/
def splitAux : List Char → List Char → List String
  | [], acc => [String.mk acc.reverse]
  | c :: cs, acc =>
      if c = '/' then String.mk acc.reverse :: splitAux cs []
      else splitAux cs (c :: acc)

/-- Splitting a string on `/` into its segments (the `split('/')` used by
both `compile` and `matches` in the spec); `""` splits to `[""]`. -/
def splitOnSlash (s : String) : List String :=
  splitAux s.data []

/-- Modelled from the spec: compilation of a single filter segment.
`+` and `#` must occupy the whole segment; a segment mixing them with other
characters is rejected with `InvalidFilter`. -/
def compileSeg (s : String) : Except ErrorKind Seg :=
  if s = "+" then .ok .plus
  else if s = "#" then .ok .hash
  else if s.data.contains '+' || s.data.contains '#' then .error .InvalidFilter
  else .ok (.lit s)

/-- Modelled from the spec: `compile(pattern) -> TopicFilter` of the Topic
Matcher (absent from `src/`): splits on `/`, fails with `InvalidFilter` if
`#` appears anywhere but the last segment or if `+`/`#` co-occurs with other
characters inside one segment. -/
def compile (pattern : String) : Except ErrorKind TopicFilter := do
  let segs ← (splitOnSlash pattern).mapM compileSeg
  if segs.dropLast.any (· == .hash) then
    .error .InvalidFilter
  else
    .ok ⟨segs⟩

/-- Modelled from the spec: segment-by-segment matching. `+` consumes exactly
one topic segment (an empty segment is a valid single level), `#` as the
final filter segment consumes all remaining topic segments including zero,
literal segments must match byte-for-byte. -/
def matchSegs : List Seg → List String → Bool
  | [], [] => true
  | [.hash], _ => true
  | .plus :: fs, _ :: ts => matchSegs fs ts
  | .lit s :: fs, t :: ts => s == t && matchSegs fs ts
  | _, _ => false

/-- Whether a segment is one of the two wildcards. -/
def Seg.isWildcard : Seg → Bool
  | .plus => true
  | .hash => true
  | .lit _ => false

/-- Whether a segment starts with the reserved-topic marker `$`. -/
def startsWithDollar (s : String) : Bool :=
  match s.data with
  | [] => false
  | c :: _ => c = '$'

/-- Whether the first segment of a split topic starts with `$`. -/
def dollarFirst (ts : List String) : Bool :=
  match ts.head? with
  | some t => startsWithDollar t
  | none => false

/-- Whether a filter's first segment is a wildcard. -/
def wildcardFirst (f : TopicFilter) : Bool :=
  match f.segs.head? with
  | some s => s.isWildcard
  | none => false

/-- Modelled from the spec: `matches(filter, topic) -> bool` of the Topic
Matcher (absent from `src/`): splits the topic on `/` and compares
segment-by-segment; a topic whose first segment starts with `$` is never
matched by a filter whose first segment is a wildcard. -/
def matchesTopic (f : TopicFilter) (topic : String) : Bool :=
  let ts := splitOnSlash topic
  if wildcardFirst f && dollarFirst ts then false
  else matchSegs f.segs ts

/-! ## Subscription Registry -/

/-- Modelled from the spec: a subscription's execution mode
(`sync`, `async`, or `mixed`). -/
inductive ExecMode where
  | sync
  | async
  | mixed
deriving DecidableEq, Repr

/-- Modelled from the spec: the effective execution mode resolved per
message (immediate/synchronous vs background/enqueued). -/
inductive ResolvedMode where
  | immediate
  | background
deriving DecidableEq, Repr

/-- Modelled from the spec: subscription metadata owned by the registry
(§3); `duration`-style wall-clock data aside, all fields of the data model.
Counters live on the subscription and are mutated only through registry
operations. -/
structure Subscription where
  filter : TopicFilter
  raw_topic : String
  pipeline_name : String
  qos : Nat
  execution_mode : ExecMode
  message_count : Nat
  error_count : Nat
  created_at : Nat
deriving DecidableEq, Repr

/-- Modelled from the spec: the Subscription Registry's contents, kept in
registration order (absent from `src/`). -/
abbrev Registry := List Subscription

/-- Modelled from the spec: the fresh `Subscription` record built by `add`
— counters start at zero. -/
def mkSub (f : TopicFilter) (raw pipeline : String) (qos : Nat)
    (mode : ExecMode) (now : Nat) : Subscription :=
  { filter := f, raw_topic := raw, pipeline_name := pipeline,
    qos := qos, execution_mode := mode,
    message_count := 0, error_count := 0, created_at := now }

/-- Modelled from the spec: `add(raw_topic, pipeline_name, qos,
execution_mode)` — compiles the filter (propagating `InvalidFilter`),
inserts or replaces by `raw_topic` key, resetting counters to zero on
replace. -/
def Registry.add (r : Registry) (raw pipeline : String) (qos : Nat)
    (mode : ExecMode) (now : Nat) : Except ErrorKind Registry :=
  match compile raw with
  | .error e => .error e
  | .ok f =>
      if r.any (·.raw_topic == raw) then
        .ok (r.map fun s =>
          if s.raw_topic == raw then mkSub f raw pipeline qos mode now else s)
      else
        .ok (r ++ [mkSub f raw pipeline qos mode now])

/-- Modelled from the spec: `remove(raw_topic) -> bool` — true if present
and removed, false if absent (not an error). -/
def Registry.remove (r : Registry) (raw : String) : Bool × Registry :=
  (r.any (·.raw_topic == raw), r.filter fun s => !(s.raw_topic == raw))

/-- Modelled from the spec: `find_matches(topic)` — every subscription whose
filter matches, in registration order. -/
def Registry.find_matches (r : Registry) (topic : String) : List Subscription :=
  r.filter fun s => matchesTopic s.filter topic

/-- Modelled from the spec: `list()` — read-only snapshots of all entries. -/
def Registry.list_subscriptions (r : Registry) : List Subscription := r

/-- Modelled from the spec: `increment_message(raw_topic)` — atomic
per-subscription counter bump; a no-op if the subscription is absent. -/
def Registry.increment_message (r : Registry) (raw : String) : Registry :=
  r.map fun s =>
    if s.raw_topic == raw then { s with message_count := s.message_count + 1 }
    else s

/-- Modelled from the spec: `increment_error(raw_topic)` — atomic
per-subscription counter bump; a no-op if the subscription is absent. -/
def Registry.increment_error (r : Registry) (raw : String) : Registry :=
  r.map fun s =>
    if s.raw_topic == raw then { s with error_count := s.error_count + 1 }
    else s

/-- Modelled from the spec: one registry operation, for reasoning about
arbitrary operation sequences. -/
inductive Op where
  | addOp (raw pipeline : String) (qos : Nat) (mode : ExecMode) (now : Nat)
  | removeOp (raw : String)
  | incMessageOp (raw : String)
  | incErrorOp (raw : String)

/-- Applying one registry operation; a rejected `add` (invalid filter)
leaves the registry unchanged. -/
def applyOp (r : Registry) : Op → Registry
  | .addOp raw p q m now =>
      match r.add raw p q m now with
      | .ok r' => r'
      | .error _ => r
  | .removeOp raw => (r.remove raw).2
  | .incMessageOp raw => r.increment_message raw
  | .incErrorOp raw => r.increment_error raw

/-- The registry reached from empty by a sequence of operations. -/
def applyOps (ops : List Op) : Registry := ops.foldl applyOp []

/-! ## Dispatch Router and Execution Adapter -/

/-- Modelled from the spec: a transient inbound message
(`{topic, payload, qos, received_at}`). -/
structure InboundMessage where
  topic : String
  payload : List Nat
  qos : Nat
  received_at : Nat
deriving DecidableEq, Repr

/-- Modelled from the spec: the outcome of dispatching one matched
subscription (`{subscription_ref, resolved_mode, success, error}`; the
wall-clock `duration` field is not modelled). The subscription is referred
to by its registry key, the raw topic. -/
structure DispatchOutcome where
  sub_topic : String
  resolved_mode : ResolvedMode
  success : Bool
  error : Option ErrorKind
deriving DecidableEq, Repr

/-- Modelled from the spec: resolution of the effective execution mode
(§4.3 step 2): `sync` → always immediate, `async` → always background,
`mixed` → QoS 2 immediate, otherwise background. -/
def resolveMode (mode : ExecMode) (qos : Nat) : ResolvedMode :=
  match mode with
  | .sync => .immediate
  | .async => .background
  | .mixed => if qos == 2 then .immediate else .background

/-- Modelled from the spec: the two external collaborators behind the
Execution Adapter — the pipeline engine (`execute`, may fail with an
underlying error message) and the job queue (`enqueue`, `none` when the
queue is unreachable). -/
structure Collaborators where
  execute : String → InboundMessage → Except String Unit
  enqueue : String → InboundMessage → Option Unit

/-- Modelled from the spec: the Execution Adapter's
`run(pipeline_name, inputs, mode)` — immediate execution wraps a pipeline
failure as `PipelineExecutionFailed`; background enqueue returns as soon as
the job is accepted, failing with `QueueUnavailable` if the queue is
unreachable. -/
def run (c : Collaborators) (pipeline : String) (msg : InboundMessage) :
    ResolvedMode → Except ErrorKind Unit
  | .immediate =>
      match c.execute pipeline msg with
      | .ok _ => .ok ()
      | .error m => .error (.PipelineExecutionFailed m)
  | .background =>
      match c.enqueue pipeline msg with
      | some _ => .ok ()
      | none => .error .QueueUnavailable

/-- Modelled from the spec: global statistics counters plus the registry
(the Statistics Aggregator's state together with the router's view). -/
structure DispatchState where
  registry : Registry
  message_count : Nat
  pipeline_count : Nat
  error_count : Nat
deriving DecidableEq, Repr

/-- Modelled from the spec: the outcome produced for one matched
subscription — resolve the mode, invoke the Execution Adapter, capture any
`PipelineExecutionFailed`/`QueueUnavailable` in the outcome. -/
def outcomeFor (c : Collaborators) (msg : InboundMessage)
    (sub : Subscription) : DispatchOutcome :=
  let mode := resolveMode sub.execution_mode msg.qos
  match run c sub.pipeline_name msg mode with
  | .ok _ =>
      { sub_topic := sub.raw_topic, resolved_mode := mode,
        success := true, error := none }
  | .error e =>
      { sub_topic := sub.raw_topic, resolved_mode := mode,
        success := false, error := some e }

/-- Modelled from the spec (§4.3 step 4): statistics recording for one
outcome — on success increment the subscription's `message_count` and the
global `pipeline_count`; on failure increment both the subscription's and
the global `error_count`. -/
def recordOutcome (st : DispatchState) (o : DispatchOutcome) : DispatchState :=
  if o.success then
    { st with registry := st.registry.increment_message o.sub_topic,
              pipeline_count := st.pipeline_count + 1 }
  else
    { st with registry := st.registry.increment_error o.sub_topic,
              error_count := st.error_count + 1 }

/-- Modelled from the spec: dispatching each matched subscription in order,
threading the statistics state; one subscription's failure does not stop
the rest. -/
def dispatchList (c : Collaborators) (msg : InboundMessage) :
    DispatchState → List Subscription → List DispatchOutcome × DispatchState
  | st, [] => ([], st)
  | st, sub :: rest =>
      let o := outcomeFor c msg sub
      let tail := dispatchList c msg (recordOutcome st o) rest
      (o :: tail.1, tail.2)

/-- Modelled from the spec: `dispatch(message)` (§4.3) — an empty topic
fails with `InvalidMessage`; zero matches record nothing and return empty;
otherwise the message is counted once and every matched subscription is
dispatched in registration order, failures captured per outcome. -/
def dispatch (c : Collaborators) (st : DispatchState) (msg : InboundMessage) :
    Except ErrorKind (List DispatchOutcome × DispatchState) :=
  if msg.topic = "" then .error .InvalidMessage
  else
    match st.registry.find_matches msg.topic with
    | [] => .ok ([], st)
    | ms =>
        .ok (dispatchList c msg
          { st with message_count := st.message_count + 1 } ms)

/-! ## MQTTMonitor (embedded from
`src/src/flowerpower_mqtt/examples/monitoring.py`) -/

/-- One statistics dictionary as stored in `MQTTMonitor.stats_history`.
The Python code reads entries with `dict.get(key, default)`, so every field
is optional; `runtime_seconds` is a (rational-modelled) float, the counters
are ints, `timestamp` is the ISO string set by `_monitor_loop`. -/
structure StatsSnapshot where
  message_count : Option Nat
  pipeline_count : Option Nat
  error_count : Option Nat
  runtime_seconds : Option Rat
  timestamp : Option String
deriving DecidableEq

/-- The value returned by `MQTTMonitor.get_summary`: either the fixed
no-statistics message or the summary record (fields in source order;
`monitoring_duration` is `len(history) * interval`). -/
inductive Summary where
  | noStats
  | report (monitoring_duration : Nat)
      (total_messages total_pipelines total_errors : Nat)
      (average_message_rate error_rate uptime : Rat)
deriving DecidableEq

/-- Checked division: Python `/` raises `ZeroDivisionError` on a zero
denominator, modelled as `none`. -/
def ratDiv (a b : Rat) : Option Rat :=
  if b = 0 then none else some (a / b)

/-- `MQTTMonitor.get_summary` from `monitoring.py`: empty history returns
the no-statistics message; otherwise rates are computed from the latest
snapshot with `max(..., 1)` denominators.  A division that raised would
surface as `none`. -/
def get_summary (interval : Nat) (stats_history : List StatsSnapshot) :
    Option Summary :=
  match stats_history.getLast? with
  | none => some .noStats
  | some latest => do
      let avg ← ratDiv (latest.message_count.getD 0 : Nat)
        (max (latest.runtime_seconds.getD 1) 1)
      let err ← ratDiv (latest.error_count.getD 0 : Nat)
        ((max (latest.message_count.getD 1) 1 : Nat) : Rat)
      some (.report (stats_history.length * interval)
        (latest.message_count.getD 0) (latest.pipeline_count.getD 0)
        (latest.error_count.getD 0) avg err
        (latest.runtime_seconds.getD 0))

/-- The history update of one `MQTTMonitor._monitor_loop` iteration: append
the new snapshot, then `pop(0)` when the length exceeds 100. -/
def monitor_iteration (stats_history : List StatsSnapshot)
    (stats : StatsSnapshot) : List StatsSnapshot :=
  if 100 < (stats_history ++ [stats]).length then (stats_history ++ [stats]).drop 1
  else stats_history ++ [stats]

/-! ## Concrete collaborator instances used by witnesses -/

/-- A collaborator pair whose pipeline engine and job queue always
succeed. -/
def noopCollab : Collaborators :=
  ⟨fun _ _ => .ok (), fun _ _ => some ()⟩

/-- A collaborator pair whose pipeline engine always fails and whose job
queue is unreachable. -/
def failCollab : Collaborators :=
  ⟨fun _ _ => .error "boom", fun _ _ => none⟩

/-! ## Concrete data used by witnesses -/

/-- The compiled form of the filter `sensors/+/data`. -/
def sensorsPlusData : TopicFilter := ⟨[.lit "sensors", .plus, .lit "data"]⟩

/-- The compiled form of the filter `sensors/#`. -/
def sensorsHash : TopicFilter := ⟨[.lit "sensors", .hash]⟩

/-- A mixed-mode subscription on topic `a`. -/
def subMixed : Subscription :=
  { filter := ⟨[.lit "a"]⟩, raw_topic := "a", pipeline_name := "p",
    qos := 2, execution_mode := .mixed,
    message_count := 0, error_count := 0, created_at := 0 }

/-- An inbound message on topic `a` delivered with QoS 2. -/
def msgQos2 : InboundMessage :=
  { topic := "a", payload := [], qos := 2, received_at := 0 }

/-- An inbound message on topic `a` delivered with QoS 0. -/
def msgQos0 : InboundMessage :=
  { topic := "a", payload := [], qos := 0, received_at := 0 }

/-- An inbound message on topic `a` delivered with QoS 1. -/
def msgQos1 : InboundMessage :=
  { topic := "a", payload := [], qos := 1, received_at := 0 }

/-- A statistics snapshot reporting zero counters and zero runtime. -/
def snapZero : StatsSnapshot :=
  ⟨some 0, some 0, some 0, some 0, none⟩

end FlowerPowerMqtt

deriving instance DecidableEq for Except


open FlowerPowerMqtt

/-! ## Helper lemmas about dispatch -/

/-- The outcome produced for a subscription carries the resolved mode,
whether the adapter succeeded or failed. -/
theorem outcomeFor_resolved_mode (c : Collaborators) (msg : InboundMessage)
    (sub : Subscription) :
    (outcomeFor c msg sub).resolved_mode =
      resolveMode sub.execution_mode msg.qos := by
  cases h : run c sub.pipeline_name msg (resolveMode sub.execution_mode msg.qos) <;>
    simp [outcomeFor, h]

/-- The outcome produced for a subscription refers to that subscription's
registry key, whether the adapter succeeded or failed. -/
theorem outcomeFor_sub_topic (c : Collaborators) (msg : InboundMessage)
    (sub : Subscription) :
    (outcomeFor c msg sub).sub_topic = sub.raw_topic := by
  cases h : run c sub.pipeline_name msg (resolveMode sub.execution_mode msg.qos) <;>
    simp [outcomeFor, h]

/-- Dispatching a list of matched subscriptions yields one outcome per
subscription, each computed from that subscription alone, in order. -/
theorem dispatchList_fst (c : Collaborators) (msg : InboundMessage) :
    ∀ (subs : List Subscription) (st : DispatchState),
      (dispatchList c msg st subs).1 = subs.map (outcomeFor c msg) := by
  intro subs
  induction subs with
  | nil => intro st; rfl
  | cons sub rest ih =>
      intro st
      simp [dispatchList, ih]

/-- C1: for every subscription whose execution mode is `mixed`, the dispatch
router resolves the effective execution mode from the message's QoS — QoS 2
always resolves to immediate (synchronous) execution and QoS 0 or 1 always
resolves to background execution. -/
theorem mixed_mode_qos_resolution (c : Collaborators) (msg : InboundMessage)
    (sub : Subscription) (h : sub.execution_mode = .mixed) :
    (msg.qos = 2 → (outcomeFor c msg sub).resolved_mode = .immediate) ∧
    ((msg.qos = 0 ∨ msg.qos = 1) →
      (outcomeFor c msg sub).resolved_mode = .background) := by
  rw [outcomeFor_resolved_mode, h]
  constructor
  · intro h2
    simp [resolveMode, h2]
  · rintro (h0 | h1)
    · simp [resolveMode, h0]
    · simp [resolveMode, h1]

/-- Witness for C1 at a concrete mixed-mode subscription and messages of
QoS 2, 0 and 1. -/
theorem mixed_mode_qos_resolution_witness :
    subMixed.execution_mode = ExecMode.mixed ∧
    (outcomeFor noopCollab msgQos2 subMixed).resolved_mode = .immediate ∧
    (outcomeFor noopCollab msgQos0 subMixed).resolved_mode = .background ∧
    (outcomeFor noopCollab msgQos1 subMixed).resolved_mode = .background :=
  ⟨rfl,
   (mixed_mode_qos_resolution noopCollab msgQos2 subMixed rfl).1 rfl,
   (mixed_mode_qos_resolution noopCollab msgQos0 subMixed rfl).2 (Or.inl rfl),
   (mixed_mode_qos_resolution noopCollab msgQos1 subMixed rfl).2 (Or.inr rfl)⟩

/-- C5: a `+` filter segment matches exactly one topic segment, an empty
segment counting as one valid level: consuming a `+` strips exactly one
topic segment whatever its content, `+` never matches when no segment
remains, and on `sensors/+/data` the topics `sensors/a/data` and
`sensors//data` match while `sensors/a/b/data` does not. -/
theorem plus_matches_exactly_one_level :
    (∀ fs ts s, matchSegs (.plus :: fs) (s :: ts) = matchSegs fs ts) ∧
    (∀ fs, matchSegs (.plus :: fs) [] = false) ∧
    compile "sensors/+/data" = .ok sensorsPlusData ∧
    matchesTopic sensorsPlusData "sensors/a/data" = true ∧
    matchesTopic sensorsPlusData "sensors//data" = true ∧
    matchesTopic sensorsPlusData "sensors/a/b/data" = false := by
  refine ⟨fun fs ts s => rfl, fun fs => rfl, by decide, by decide, by decide, by decide⟩

/-- C6: a trailing `#` filter segment matches zero or more remaining topic
segments, and on `sensors/#` the topics `sensors`, `sensors/a` and
`sensors/a/b` all match. -/
theorem hash_matches_zero_or_more :
    (∀ ts, matchSegs [.hash] ts = true) ∧
    compile "sensors/#" = .ok sensorsHash ∧
    matchesTopic sensorsHash "sensors" = true ∧
    matchesTopic sensorsHash "sensors/a" = true ∧
    matchesTopic sensorsHash "sensors/a/b" = true := by
  refine ⟨fun ts => ?_, by decide, by decide, by decide, by decide⟩
  cases ts <;> rfl

/-- C7: a valid filter whose first segment is a wildcard never matches a
topic whose first segment starts with `$`. -/
theorem wildcard_never_matches_dollar (p : String) (f : TopicFilter)
    (t : String) (_hc : compile p = .ok f) (hw : wildcardFirst f = true)
    (hd : dollarFirst (splitOnSlash t) = true) :
    matchesTopic f t = false := by
  unfold matchesTopic
  simp [hw, hd]

/-- Witness for C7 at the filter `#` and the topic `$SYS/broker`. -/
theorem wildcard_never_matches_dollar_witness :
    compile "#" = .ok ⟨[Seg.hash]⟩ ∧
    wildcardFirst ⟨[Seg.hash]⟩ = true ∧
    dollarFirst (splitOnSlash "$SYS/broker") = true ∧
    matchesTopic ⟨[Seg.hash]⟩ "$SYS/broker" = false :=
  ⟨by decide, by decide, by decide,
   wildcard_never_matches_dollar "#" ⟨[Seg.hash]⟩ "$SYS/broker"
     (by decide) (by decide) (by decide)⟩

/-- C9: `MQTTMonitor.get_summary` is total — an empty history returns the
fixed no-statistics message, and otherwise both rate divisions use
denominators clamped to at least 1 by `max(..., 1)`, so no division by zero
can occur even when the latest snapshot reports zero messages or zero
runtime. -/
theorem get_summary_total (interval : Nat) (hist : List StatsSnapshot) :
    (get_summary interval hist).isSome = true ∧
    (hist = [] → get_summary interval hist = some .noStats) ∧
    (∀ latest, hist.getLast? = some latest →
      (1 : Rat) ≤ max (latest.runtime_seconds.getD 1) 1 ∧
      1 ≤ max (latest.message_count.getD 1) 1) := by
  cases h : hist.getLast? with
  | none =>
      refine ⟨by simp [get_summary, h], fun _ => by simp [get_summary, h], ?_⟩
      intro latest hl
      simp at hl
  | some latest =>
      have hr : max (latest.runtime_seconds.getD 1) 1 ≠ 0 := by
        have : (0 : Rat) < 1 := by norm_num
        have := lt_of_lt_of_le this (le_max_right (latest.runtime_seconds.getD 1) 1)
        exact ne_of_gt this
      have hm : max ((latest.message_count.getD 1 : Nat) : Rat) 1 ≠ 0 := by
        have : (0 : Rat) < 1 := by norm_num
        exact ne_of_gt (lt_of_lt_of_le this
          (le_max_right ((latest.message_count.getD 1 : Nat) : Rat) 1))
      refine ⟨?_, ?_, ?_⟩
      · simp [get_summary, h, ratDiv, hr, hm]
      · intro he
        subst he
        simp at h
      · intro l hl
        cases hl
        exact ⟨le_max_right _ _, le_max_right _ _⟩

/-- Witness for C9: a single all-zero snapshot yields a defined summary,
and the clamped denominators are at least 1; the empty history yields the
no-statistics message. -/
theorem get_summary_total_witness :
    (get_summary 5 [snapZero]).isSome = true ∧
    get_summary 5 [] = some .noStats ∧
    (1 : Rat) ≤ max (snapZero.runtime_seconds.getD 1) 1 ∧
    1 ≤ max (snapZero.message_count.getD 1) 1 :=
  ⟨(get_summary_total 5 [snapZero]).1,
   (get_summary_total 5 []).2.1 rfl,
   ((get_summary_total 5 [snapZero]).2.2 snapZero rfl).1,
   ((get_summary_total 5 [snapZero]).2.2 snapZero rfl).2⟩

/-- C10: one `_monitor_loop` iteration preserves the bound
`len(stats_history) <= 100` — after appending the new snapshot, the oldest
entry is popped whenever the length exceeds 100. -/
theorem monitor_history_bounded (hist : List StatsSnapshot)
    (s : StatsSnapshot) (h : hist.length ≤ 100) :
    (monitor_iteration hist s).length ≤ 100 := by
  unfold monitor_iteration
  split
  · simp only [List.length_drop, List.length_append, List.length_cons,
      List.length_nil]
    omega
  · rename_i hn
    simp only [List.length_append, List.length_cons, List.length_nil] at hn ⊢
    omega

/-- Witness for C10 at the empty history and the all-zero snapshot. -/
theorem monitor_history_bounded_witness :
    ([] : List StatsSnapshot).length ≤ 100 ∧
    (monitor_iteration [] snapZero).length ≤ 100 :=
  ⟨by decide, monitor_history_bounded [] snapZero (by decide)⟩

/-- A subscription on `a/#` executing pipeline `pa` in background mode. -/
def subHashA : Subscription :=
  { filter := ⟨[.lit "a", .hash]⟩, raw_topic := "a/#", pipeline_name := "pa",
    qos := 0, execution_mode := .async,
    message_count := 0, error_count := 0, created_at := 0 }

/-- A subscription on `a/+` executing pipeline `pb` in immediate mode. -/
def subPlusA : Subscription :=
  { filter := ⟨[.lit "a", .plus]⟩, raw_topic := "a/+", pipeline_name := "pb",
    qos := 0, execution_mode := .sync,
    message_count := 0, error_count := 0, created_at := 0 }

/-- A dispatch state whose registry holds `subHashA` then `subPlusA`, all
counters zero. -/
def stTwo : DispatchState :=
  { registry := [subHashA, subPlusA],
    message_count := 0, pipeline_count := 0, error_count := 0 }

/-- An inbound message on topic `a/b` with QoS 1. -/
def msgAB : InboundMessage :=
  { topic := "a/b", payload := [], qos := 1, received_at := 0 }

/-- An inbound message with an empty topic. -/
def msgEmpty : InboundMessage :=
  { topic := "", payload := [], qos := 0, received_at := 0 }

/-- C2: `dispatch` never raises for a downstream failure — for a non-empty
topic it returns the full outcome list, one outcome per match computed from
that subscription alone (so a sibling's failure cannot prevent it); an
error return is only ever `InvalidMessage` on an empty topic; and an
adapter failure (`PipelineExecutionFailed` or `QueueUnavailable`) is
captured in that subscription's outcome. -/
theorem dispatch_captures_failures (c : Collaborators) (st : DispatchState)
    (msg : InboundMessage) :
    (msg.topic ≠ "" → ∃ st', dispatch c st msg =
        .ok ((st.registry.find_matches msg.topic).map (outcomeFor c msg), st')) ∧
    (∀ e, dispatch c st msg = .error e →
        e = .InvalidMessage ∧ msg.topic = "") ∧
    (∀ sub e, run c sub.pipeline_name msg
        (resolveMode sub.execution_mode msg.qos) = .error e →
        (outcomeFor c msg sub).success = false ∧
        (outcomeFor c msg sub).error = some e) := by
  refine ⟨?_, ?_, ?_⟩
  · intro h
    unfold dispatch
    rw [if_neg h]
    cases hm : st.registry.find_matches msg.topic with
    | nil => exact ⟨st, by simp⟩
    | cons a as =>
        refine ⟨(dispatchList c msg
          { st with message_count := st.message_count + 1 } (a :: as)).2, ?_⟩
        rw [← dispatchList_fst c msg (a :: as)
          { st with message_count := st.message_count + 1 }, Prod.mk.eta]
  · intro e he
    unfold dispatch at he
    by_cases h : msg.topic = ""
    · rw [if_pos h] at he
      injection he with h2
      exact ⟨h2.symm, h⟩
    · rw [if_neg h] at he
      cases hm : st.registry.find_matches msg.topic with
      | nil => rw [hm] at he; exact Except.noConfusion he
      | cons a as => rw [hm] at he; exact Except.noConfusion he
  · intro sub e he
    refine ⟨?_, ?_⟩ <;> simp [outcomeFor, he]

/-- Witness for C2: with a failing pipeline engine and an unreachable job
queue, dispatching `a/b` over two matching subscriptions still returns an
outcome list (one per match); the empty-topic message fails with
`InvalidMessage`; and the failing adapter run is captured in the outcome of
the affected subscription. -/
theorem dispatch_captures_failures_witness :
    msgAB.topic ≠ "" ∧
    (∃ st', dispatch failCollab stTwo msgAB =
      .ok ((stTwo.registry.find_matches msgAB.topic).map
        (outcomeFor failCollab msgAB), st')) ∧
    (ErrorKind.InvalidMessage = ErrorKind.InvalidMessage ∧
      msgEmpty.topic = "") ∧
    ((outcomeFor failCollab msgAB subPlusA).success = false ∧
      (outcomeFor failCollab msgAB subPlusA).error =
        some (.PipelineExecutionFailed "boom")) :=
  ⟨by decide,
   (dispatch_captures_failures failCollab stTwo msgAB).1 (by decide),
   (dispatch_captures_failures failCollab stTwo msgEmpty).2.1
     .InvalidMessage (by decide),
   (dispatch_captures_failures failCollab stTwo msgAB).2.2 subPlusA
     (.PipelineExecutionFailed "boom") (by decide)⟩

/-- The outcome list produced by dispatching `msgAB` over `stTwo` with
always-succeeding collaborators. -/
def outsTwo : List DispatchOutcome :=
  [{ sub_topic := "a/#", resolved_mode := .background,
     success := true, error := none },
   { sub_topic := "a/+", resolved_mode := .immediate,
     success := true, error := none }]

/-- The statistics state after dispatching `msgAB` over `stTwo` with
always-succeeding collaborators. -/
def stTwoAfter : DispatchState :=
  { registry := [{ subHashA with message_count := 1 },
                 { subPlusA with message_count := 1 }],
    message_count := 1, pipeline_count := 2, error_count := 0 }

/-- C3: a successful `dispatch` returns exactly one outcome per matched
subscription, in the order `find_matches` returned them (registration
order), each outcome referring to its subscription's registry key. -/
theorem dispatch_outcome_count_and_order (c : Collaborators)
    (st : DispatchState) (msg : InboundMessage)
    (outs : List DispatchOutcome) (st' : DispatchState)
    (h : dispatch c st msg = .ok (outs, st')) :
    outs.length = (st.registry.find_matches msg.topic).length ∧
    outs.map (·.sub_topic) =
      (st.registry.find_matches msg.topic).map (·.raw_topic) := by
  unfold dispatch at h
  by_cases ht : msg.topic = ""
  · rw [if_pos ht] at h
    exact Except.noConfusion h
  · rw [if_neg ht] at h
    cases hm : st.registry.find_matches msg.topic with
    | nil =>
        rw [hm] at h
        injection h with h2
        injection h2 with h3 h4
        subst h3
        simp
    | cons a as =>
        rw [hm] at h
        injection h with h2
        have hfst := congrArg Prod.fst h2
        rw [dispatchList_fst] at hfst
        subst hfst
        refine ⟨by simp, ?_⟩
        rw [List.map_map]
        exact List.map_congr_left fun s _ => outcomeFor_sub_topic c msg s

/-- Witness for C3: dispatching `a/b` over two matching subscriptions
yields two outcomes whose order and keys agree with `find_matches`. -/
theorem dispatch_outcome_count_and_order_witness :
    dispatch noopCollab stTwo msgAB = .ok (outsTwo, stTwoAfter) ∧
    outsTwo.length = (stTwo.registry.find_matches msgAB.topic).length ∧
    outsTwo.map (·.sub_topic) =
      (stTwo.registry.find_matches msgAB.topic).map (·.raw_topic) :=
  ⟨by decide,
   (dispatch_outcome_count_and_order noopCollab stTwo msgAB outsTwo stTwoAfter
     (by decide)).1,
   (dispatch_outcome_count_and_order noopCollab stTwo msgAB outsTwo stTwoAfter
     (by decide)).2⟩

/-- C4: dispatching a message whose topic matches no registered
subscription returns the empty outcome list and the statistics state
unchanged — the same `st`, so the global `message_count`, `pipeline_count`
and `error_count` and every per-subscription counter are untouched. -/
theorem dispatch_unmatched_noop (c : Collaborators) (st : DispatchState)
    (msg : InboundMessage) (h : msg.topic ≠ "")
    (hm : st.registry.find_matches msg.topic = []) :
    dispatch c st msg = .ok ([], st) := by
  unfold dispatch
  rw [if_neg h, hm]

/-- Witness for C4: a topic matching neither registered filter dispatches
to the empty outcome list with the state unchanged. -/
theorem dispatch_unmatched_noop_witness :
    ({ topic := "zzz", payload := [], qos := 0,
       received_at := 0 } : InboundMessage).topic ≠ "" ∧
    stTwo.registry.find_matches "zzz" = [] ∧
    dispatch noopCollab stTwo
      { topic := "zzz", payload := [], qos := 0, received_at := 0 } =
      .ok ([], stTwo) :=
  ⟨by decide, by decide,
   dispatch_unmatched_noop noopCollab stTwo
     { topic := "zzz", payload := [], qos := 0, received_at := 0 }
     (by decide) (by decide)⟩

/-! ## Registry key invariant -/

/-- The registration keys of a registry, in order. -/
def topics (r : Registry) : List String := r.map (·.raw_topic)

/-- Mapping a key-preserving function over a registry keeps its keys. -/
theorem topics_map_of_preserve (r : Registry) (g : Subscription → Subscription)
    (h : ∀ s, (g s).raw_topic = s.raw_topic) : topics (r.map g) = topics r := by
  unfold topics
  rw [List.map_map]
  exact List.map_congr_left fun s _ => h s

/-- `increment_message` keeps every registration key. -/
theorem topics_increment_message (r : Registry) (raw : String) :
    topics (r.increment_message raw) = topics r := by
  unfold Registry.increment_message
  exact topics_map_of_preserve r _ fun s => by
    by_cases h : s.raw_topic == raw <;> simp [h]

/-- `increment_error` keeps every registration key. -/
theorem topics_increment_error (r : Registry) (raw : String) :
    topics (r.increment_error raw) = topics r := by
  unfold Registry.increment_error
  exact topics_map_of_preserve r _ fun s => by
    by_cases h : s.raw_topic == raw <;> simp [h]

/-- The replacement function used by `add` keeps every registration key. -/
theorem replace_preserves_topic (f : TopicFilter) (raw p : String) (q : Nat)
    (m : ExecMode) (now : Nat) (s : Subscription) :
    (if s.raw_topic == raw then mkSub f raw p q m now else s).raw_topic =
      s.raw_topic := by
  by_cases h : s.raw_topic == raw
  · simp [h, mkSub]
    exact (eq_of_beq h).symm
  · simp [h]

/-- A successful `add` preserves distinctness of registration keys. -/
theorem topics_add_nodup (r : Registry) (raw p : String) (q : Nat)
    (m : ExecMode) (now : Nat) (r' : Registry) (hn : (topics r).Nodup)
    (h : r.add raw p q m now = .ok r') : (topics r').Nodup := by
  unfold Registry.add at h
  split at h
  · exact Except.noConfusion h
  · rename_i f _
    split at h
    · injection h with h2
      subst h2
      rw [topics_map_of_preserve r _ (replace_preserves_topic f raw p q m now)]
      exact hn
    · rename_i ha
      injection h with h2
      subst h2
      have hmem : raw ∉ topics r := by
        intro hraw
        apply ha
        rw [List.any_eq_true]
        obtain ⟨s, hs, hseq⟩ := List.mem_map.mp hraw
        exact ⟨s, hs, by simp [hseq]⟩
      unfold topics
      rw [List.map_append, List.nodup_append]
      refine ⟨hn, by simp, ?_⟩
      intro a hha hhb
      simp [mkSub] at hhb
      subst hhb
      exact hmem hha

/-- Every single registry operation preserves distinctness of keys. -/
theorem topics_applyOp_nodup (r : Registry) (op : Op)
    (hn : (topics r).Nodup) : (topics (applyOp r op)).Nodup := by
  cases op with
  | addOp raw p q m now =>
      simp only [applyOp]
      split
      · rename_i r' h
        exact topics_add_nodup r raw p q m now r' hn h
      · exact hn
  | removeOp raw =>
      simp only [applyOp, Registry.remove]
      unfold topics
      exact hn.sublist ((List.filter_sublist r).map (·.raw_topic))
  | incMessageOp raw =>
      simp only [applyOp]
      rw [topics_increment_message]
      exact hn
  | incErrorOp raw =>
      simp only [applyOp]
      rw [topics_increment_error]
      exact hn

/-- Folding any operation sequence from a key-distinct registry yields a
key-distinct registry. -/
theorem topics_foldl_nodup (ops : List Op) :
    ∀ r : Registry, (topics r).Nodup → (topics (ops.foldl applyOp r)).Nodup := by
  induction ops with
  | nil => exact fun r hn => hn
  | cons op rest ih => exact fun r hn => ih _ (topics_applyOp_nodup r op hn)

/-- Counting entries keyed `raw` equals counting `raw` among the keys. -/
theorem countP_topic_eq_count (r : Registry) (raw : String) :
    r.countP (·.raw_topic == raw) = (topics r).count raw := by
  unfold topics
  rw [List.count_eq_countP, List.countP_map]
  rfl

/-- A successful `add` on a key-distinct registry leaves exactly one entry
under the added key, with both counters reset to zero. -/
theorem add_unique_entry (r : Registry) (raw p : String) (q : Nat)
    (m : ExecMode) (now : Nat) (r' : Registry) (hn : (topics r).Nodup)
    (h : r.add raw p q m now = .ok r') :
    (r'.filter (·.raw_topic == raw)).length = 1 ∧
    ∀ s ∈ r', s.raw_topic = raw →
      s.message_count = 0 ∧ s.error_count = 0 := by
  unfold Registry.add at h
  split at h
  · exact Except.noConfusion h
  · rename_i f _
    split at h
    · rename_i ha
      injection h with h2
      subst h2
      constructor
      · rw [← List.countP_eq_length_filter, List.countP_map]
        have hpt : r.countP
            ((fun s : Subscription => s.raw_topic == raw) ∘
              (fun s => if s.raw_topic == raw then mkSub f raw p q m now
                        else s)) =
            r.countP (·.raw_topic == raw) := by
          apply List.countP_congr
          intro s _
          by_cases hb : s.raw_topic == raw <;> simp [Function.comp, hb, mkSub]
        rw [hpt, countP_topic_eq_count]
        have hle : (topics r).count raw ≤ 1 :=
          List.nodup_iff_count_le_one.mp hn raw
        have hge : 0 < (topics r).count raw := by
          rw [List.any_eq_true] at ha
          obtain ⟨s, hs, hseq⟩ := ha
          exact List.count_pos_iff.mpr
            (List.mem_map.mpr ⟨s, hs, eq_of_beq hseq⟩)
        omega
      · intro s hs hraw
        obtain ⟨t, _, hts⟩ := List.mem_map.mp hs
        by_cases hb : t.raw_topic == raw
        · rw [if_pos hb] at hts
          subst hts
          exact ⟨rfl, rfl⟩
        · rw [if_neg hb] at hts
          subst hts
          exact absurd (beq_iff_eq.mpr hraw) hb
    · rename_i ha
      injection h with h2
      subst h2
      have hnone : ∀ s ∈ r, ¬(s.raw_topic == raw) = true := by
        intro s hs hb
        exact ha (List.any_eq_true.mpr ⟨s, hs, hb⟩)
      constructor
      · rw [List.filter_append, List.filter_eq_nil_iff.mpr hnone]
        simp [mkSub]
      · intro s hs hraw
        rcases List.mem_append.mp hs with hsl | hsr
        · exact absurd (beq_iff_eq.mpr hraw) (hnone s hsl)
        · rw [List.mem_singleton] at hsr
          subst hsr
          exact ⟨rfl, rfl⟩

/-- C8: across every sequence of registry operations starting from the
empty registry, the registry keeps at most one subscription per raw topic;
and a successful `add` — in particular a re-subscription to an existing raw
topic, which replaces the prior entry — leaves `list_subscriptions()`
showing exactly one entry under that raw topic, whose `message_count` and
`error_count` are zero. -/
theorem registry_at_most_one_per_topic :
    (∀ ops, (topics (applyOps ops)).Nodup) ∧
    (∀ ops raw p q m now r',
      (applyOps ops).add raw p q m now = .ok r' →
      ((r'.list_subscriptions.filter (·.raw_topic == raw)).length = 1 ∧
       ∀ s ∈ r'.list_subscriptions, s.raw_topic = raw →
         s.message_count = 0 ∧ s.error_count = 0)) := by
  constructor
  · intro ops
    exact topics_foldl_nodup ops [] (by simp [topics])
  · intro ops raw p q m now r' h
    exact add_unique_entry _ raw p q m now r'
      (topics_foldl_nodup ops [] (by simp [topics])) h

/-- The registry produced by registering `a/b`, bumping its message
counter, and re-registering `a/b` with a new pipeline: a single entry with
counters reset. -/
def regReplaced : Registry :=
  [{ filter := ⟨[.lit "a", .lit "b"]⟩, raw_topic := "a/b",
     pipeline_name := "p2", qos := 2, execution_mode := .async,
     message_count := 0, error_count := 0, created_at := 5 }]

/-- Witness for C8: after an add, a counter bump, and a re-add of the same
raw topic, the registry lists exactly one entry for that topic and its
counters are reset to zero. -/
theorem registry_at_most_one_per_topic_witness :
    (topics (applyOps [Op.addOp "a/b" "p1" 1 ExecMode.sync 0,
      Op.incMessageOp "a/b"])).Nodup ∧
    (applyOps [Op.addOp "a/b" "p1" 1 ExecMode.sync 0,
      Op.incMessageOp "a/b"]).add "a/b" "p2" 2 ExecMode.async 5 =
      .ok regReplaced ∧
    (regReplaced.list_subscriptions.filter
      (·.raw_topic == "a/b")).length = 1 ∧
    (∀ s ∈ regReplaced.list_subscriptions, s.raw_topic = "a/b" →
      s.message_count = 0 ∧ s.error_count = 0) :=
  ⟨registry_at_most_one_per_topic.1
     [Op.addOp "a/b" "p1" 1 ExecMode.sync 0, Op.incMessageOp "a/b"],
   by decide,
   (registry_at_most_one_per_topic.2
     [Op.addOp "a/b" "p1" 1 ExecMode.sync 0, Op.incMessageOp "a/b"]
     "a/b" "p2" 2 ExecMode.async 5 regReplaced (by decide)).1,
   (registry_at_most_one_per_topic.2
     [Op.addOp "a/b" "p1" 1 ExecMode.sync 0, Op.incMessageOp "a/b"]
     "a/b" "p2" 2 ExecMode.async 5 regReplaced (by decide)).2⟩
